import Mathlib

/-!
Verification of the weatherman report generator (`src/weather.py`).

The Python source is shallowly embedded:

* A pandas `DataFrame` becomes a list of normalized rows plus its column
  names.  Numeric cells hold `ℚ` (the float arithmetic of the source is
  modelled exactly over the rationals); a missing cell in a raw file is
  `Option.none` before `fillna(0)` is applied.
* `pd.read_csv` outcomes are modelled by `FileContent`: a well-formed
  table, a file raising `pandas.errors.ParserError` (ragged rows), or a
  file raising any other exception (for example a `UnicodeDecodeError`
  from a wrongly encoded file) which `load_weather_data` does not catch.
* `pd.to_datetime(_, errors := coerce)` is modelled by `parseDate`,
  restricted to plain `year-month-day` digit strings (the only shape the
  pipeline feeds it after the regex filter); failures become `none`,
  matching coercion to `NaT`.
* `print` output becomes a list of structured `Line` values; numeric
  formatting (`:.1f`, colour codes) is presentation only and is not
  modelled, the printed payload values are.
* `glob(os.path.join(folder, "*.txt"))` is modelled over an optional
  list of directory entries; a missing or non-directory path makes glob
  return no matches, exactly as in Python.
* An uncaught exception aborts the run with exit status 1; a normal
  return exits 0.  `process_weather_files` therefore returns the list of
  printed lines together with the exit status.
-/

namespace Weatherman

/-! ## Dates -/

/-- A calendar date as produced by a successful `pd.to_datetime`. -/
structure Date where
  year : ℕ
  month : ℕ
  day : ℕ
  deriving DecidableEq

/-- Gregorian leap-year rule, as used by `pandas` timestamps. -/
def isLeapYear (y : ℕ) : Bool :=
  y % 4 == 0 && (y % 100 != 0 || y % 400 == 0)

def daysInMonth (y m : ℕ) : ℕ :=
  if m == 2 then (if isLeapYear y then 29 else 28)
  else if m == 4 || m == 6 || m == 9 || m == 11 then 30
  else 31

def validDate (y m d : ℕ) : Bool :=
  1 ≤ m && m ≤ 12 && 1 ≤ d && d ≤ daysInMonth y m

/-- Split a character list at every `-`, keeping empty groups
(the behaviour of `String.splitOn "-"`). -/
def splitOnDash : List Char → List (List Char)
  | [] => [[]]
  | c :: rest =>
    let r := splitOnDash rest
    if c = '-' then [] :: r
    else
      match r with
      | [] => [[c]]
      | g :: gs => (c :: g) :: gs

/-- Numeric value of a non-empty all-digit character group, else `none`. -/
def digitsVal (cs : List Char) : Option ℕ :=
  match cs with
  | [] => none
  | _ =>
    if cs.all Char.isDigit then
      some (cs.foldl (fun n c => n * 10 + (c.toNat - '0'.toNat)) 0)
    else none

/-- Model of `pd.to_datetime(s, errors="coerce")` on the plain
`year-month-day` digit strings this pipeline feeds it: split on `-`,
require three numeric groups forming a valid calendar date; anything
else coerces to `NaT`, modelled as `none`. -/
def parseDate (s : String) : Option Date :=
  match splitOnDash s.toList with
  | [ys, ms, ds] =>
    match digitsVal ys, digitsVal ms, digitsVal ds with
    | some y, some m, some d => if validDate y m d then some ⟨y, m, d⟩ else none
    | _, _, _ => none
  | _ => none

/-- Longest run of leading digits of a character list, and the rest. -/
def takeDigits : List Char → ℕ × List Char
  | [] => (0, [])
  | c :: cs =>
    if c.isDigit then
      let (n, r) := takeDigits cs
      (n + 1, r)
    else (0, c :: cs)

/-- Model of `Series.str.match(r"\d\x7b4\x7d-\d\x7b1,2\x7d-\d\x7b1,2\x7d")`:
an anchored-at-start (not at end) match of four digits, a dash, one or
two digits, a dash, and at least one digit.  `re.match` only anchors the
start, so trailing characters are allowed. -/
def matchesPattern (s : String) : Bool :=
  match s.toList with
  | a :: b :: c :: d :: e :: rest =>
    a.isDigit && b.isDigit && c.isDigit && d.isDigit && e == '-' &&
      (let p := takeDigits rest
       (p.1 == 1 || p.1 == 2) &&
         match p.2 with
         | f :: r2 => f == '-' && (takeDigits r2).1 != 0
         | [] => false)
  | _ => false

/-! ## Data model -/

/-- One raw CSV row before `fillna(0)`: the date cell (under whichever
recognized date column the file uses) and the three numeric cells, which
may be missing (`NaN`). -/
structure RawRow where
  date : String
  maxTempC : Option ℚ
  minTempC : Option ℚ
  maxHumidity : Option ℚ
  deriving DecidableEq

/-- A row after `fillna(0)`: every numeric cell holds a value. -/
structure Row where
  date : String
  maxTempC : ℚ
  minTempC : ℚ
  maxHumidity : ℚ
  deriving DecidableEq

/-- A pandas data frame: its column names and its rows.  The parsed
`Date` column added by `filter_by_year_and_month` is recovered from
`Row.date` via `parseDate` where it is consumed. -/
structure DataFrame where
  columns : List String
  rows : List Row
  deriving DecidableEq

/-- Outcome of `pd.read_csv` on one file.  `parserError` models a file
raising `pandas.errors.ParserError`; `otherError` models a file raising
any other exception (e.g. `UnicodeDecodeError` on a wrongly encoded
file), which the `except` clause in `load_weather_data` does not catch. -/
inductive FileContent where
  | table (columns : List String) (raw : List RawRow)
  | parserError
  | otherError
  deriving DecidableEq

/-- A directory entry: its path components relative to the input folder
(length one means the file sits directly in the folder) and its content. -/
structure DirEntry where
  path : List String
  content : FileContent
  deriving DecidableEq

/-- One printed line of output.  Constructors carry the data payload of
the corresponding `print` in the source; text formatting is presentation
and is not modelled. -/
inductive Line where
  | parseErrorMsg
  | noDateColumnMsg
  | highest (v : ℚ) (day : String)
  | noDataHighest (year : ℤ)
  | lowest (v : ℚ) (day : String)
  | noDataLowest (year : ℤ)
  | humid (v : ℚ) (day : String)
  | noDataHumid (year : ℤ)
  | highestAverage (v : ℚ)
  | lowestAverage (v : ℚ)
  | averageHumidity (v : ℚ)
  | noDataAvailable (year : ℤ) (month : Option ℤ)
  | chartNoData
  | chartHeading (months : List ℕ) (year : ℕ)
  | chartRow (day : ℕ) (lowBar : ℕ) (lowTemp : ℚ) (highBar : ℕ) (highTemp : ℚ)
  deriving DecidableEq

/-! ## The source functions -/

/-- `df.fillna(0)` on one row: missing numeric cells become `0`. -/
def fillRow (r : RawRow) : Row :=
  ⟨r.date, r.maxTempC.getD 0, r.minTempC.getD 0, r.maxHumidity.getD 0⟩

/-- `load_weather_data`: read a file, fill `NaN` with 0; on a
`ParserError` print a diagnostic and return an empty frame; any other
exception propagates (modelled as `Except.error`). -/
def load_weather_data : FileContent → Except Unit (DataFrame × List Line)
  | .table cols raw => .ok (⟨cols, raw.map fillRow⟩, [])
  | .parserError => .ok (⟨[], []⟩, [.parseErrorMsg])
  | .otherError => .error ()

/-- `get_date_column`: the first of `PKT`, `PKST`, `GST` present among
the frame's columns. -/
def get_date_column (df : DataFrame) : Option String :=
  ["PKT", "PKST", "GST"].find? (fun c => df.columns.contains c)

/-- The `Date.dt.year` of a row, as compared against the target year. -/
def yearOf (r : Row) : Option ℤ :=
  (parseDate r.date).map (fun d => (d.year : ℤ))

/-- The `Date.dt.month` of a row. -/
def monthOf (r : Row) : Option ℤ :=
  (parseDate r.date).map (fun d => (d.month : ℤ))

/-- The row-filtering part of `filter_by_year_and_month`: drop rows not
matching the date regex, then keep rows whose parsed year equals the
target, then (when a month is given) those whose parsed month equals it.
A row whose date coerces to `NaT` fails the year comparison. -/
def filterRows (rows : List Row) (year : ℤ) (month : Option ℤ) : List Row :=
  let r1 := rows.filter (fun r => matchesPattern r.date)
  let r2 := r1.filter (fun r => yearOf r == some year)
  match month with
  | none => r2
  | some m => r2.filter (fun r => monthOf r == some m)

/-- `filter_by_year_and_month`: with no recognized date column, print a
diagnostic and return an empty frame; otherwise filter the rows (the
added `Date` column is recovered from `Row.date` downstream). -/
def filter_by_year_and_month (df : DataFrame) (year : ℤ) (month : Option ℤ) :
    DataFrame × List Line :=
  match get_date_column df with
  | none => (⟨[], []⟩, [.noDateColumnMsg])
  | some _ => (⟨df.columns, filterRows df.rows year month⟩, [])

/-- The same row filter carried out on label–row pairs.  `pd.read_csv`
labels the rows `0..n-1`, and boolean masking preserves labels, so the
filtered frame keeps each surviving row's original label (its position
in the loaded file). -/
def filterRowsWithLabels (rows : List Row) (year : ℤ) (month : Option ℤ) :
    List (ℕ × Row) :=
  let r1 := rows.enum.filter (fun p => matchesPattern p.2.date)
  let r2 := r1.filter (fun p => yearOf p.2 == some year)
  match month with
  | none => r2
  | some m => r2.filter (fun p => monthOf p.2 == some m)

/-- `filter_by_year_and_month` seen together with the frame's labels:
the empty frame on a missing date column, otherwise the label-preserving
row filter.  Its value projection is `filter_by_year_and_month` itself
(`filterWithLabels_map_snd`). -/
def filterWithLabels (df : DataFrame) (year : ℤ) (month : Option ℤ) : List (ℕ × Row) :=
  match get_date_column df with
  | none => []
  | some _ => filterRowsWithLabels df.rows year month

/-! ## Chart rendering -/

/-- Python `int()` truncation toward zero of a rational. -/
def intTrunc (q : ℚ) : ℤ := q.num.tdiv (q.den : ℤ)

/-- Length of `'+' * int(q)`: string repetition by a non-positive count
yields the empty string, so the truncation is clamped below at zero. -/
def barLen (q : ℚ) : ℕ := (intTrunc q).toNat

/-- Day-of-month printed by `row['Date'].strftime("%d")`.  The rows
reaching the chart were kept by the year filter, so their dates parse. -/
def dayOf (r : Row) : ℕ :=
  match parseDate r.date with
  | some d => d.day
  | none => 0

def monthNumOf (r : Row) : ℕ :=
  match parseDate r.date with
  | some d => d.month
  | none => 0

def yearNumOf (r : Row) : ℕ :=
  match parseDate r.date with
  | some d => d.year
  | none => 0

/-- One chart line: day of month, low bar and value, high bar and value. -/
def chartLine (r : Row) : Line :=
  .chartRow (dayOf r) (barLen r.minTempC) r.minTempC (barLen r.maxTempC) r.maxTempC

/-- `plot_temperature_bars` over the labelled frame (`pd.concat`
preserves each frame's labels).  An empty frame prints the no-data
message.  Otherwise the heading is built first: `month_name()[0]` is a
label-based lookup on the integer-labelled series — it raises `KeyError`
when no row carries label 0 (the uncaught exception aborts the run
before anything from this call prints), yields that row's month when
exactly one does, and yields the sub-series of all their months under
duplicate labels; the year is taken positionally (`iloc[0]`) from the
first row.  Then one line per row in the given order. -/
def plot_temperature_bars (rows : List (ℕ × Row)) : Except Unit (List Line) :=
  match rows with
  | [] => .ok [.chartNoData]
  | r :: rest =>
    let label0 := (r :: rest).filter (fun p => p.1 == 0)
    if label0.isEmpty then .error ()
    else
      .ok (.chartHeading (label0.map (fun p => monthNumOf p.2)) (yearNumOf r.2) ::
        (r :: rest).map (fun p => chartLine p.2))

/-! ## Aggregation -/

/-- Arithmetic mean, as computed by `Series.mean()` and by
`sum(xs) / len(xs)` in the driver. -/
def meanQ (l : List ℚ) : ℚ := l.sum / (l.length : ℚ)

/-- `calculate_averages`: `(None, None, None)` on an empty frame, else
the three column means. -/
def calculate_averages (rows : List Row) : Option ℚ × Option ℚ × Option ℚ :=
  match rows with
  | [] => (none, none, none)
  | _ => (some (meanQ (rows.map Row.maxTempC)),
          some (meanQ (rows.map Row.minTempC)),
          some (meanQ (rows.map Row.maxHumidity)))

/-- `Series.max()` over a column of a non-empty frame. -/
def colMax (f : Row → ℚ) : List Row → Option ℚ
  | [] => none
  | r :: rs => some ((rs.map f).foldl max (f r))

/-- `Series.min()` over a column of a non-empty frame. -/
def colMin (f : Row → ℚ) : List Row → Option ℚ
  | [] => none
  | r :: rs => some ((rs.map f).foldl min (f r))

/-- `df[df[col] == v]['Date'].values[0]`: the date of the first row
whose column value equals `v` (the date is carried as its source
string; the `Date` column holds its parsed form). -/
def firstDateWith (f : Row → ℚ) (v : ℚ) (rows : List Row) : String :=
  match rows.find? (fun r => f r == v) with
  | some r => r.date
  | none => ""

/-- `find_extremes`: on an empty frame six `None`s (modelled as one
`none`); otherwise the column max/min/max together with the date of the
first row attaining each. -/
def find_extremes (rows : List Row) : Option (ℚ × String × ℚ × String × ℚ × String) :=
  match colMax Row.maxTempC rows, colMin Row.minTempC rows, colMax Row.maxHumidity rows with
  | some hv, some lv, some mv =>
    some (hv, firstDateWith Row.maxTempC hv rows,
          lv, firstDateWith Row.minTempC lv rows,
          mv, firstDateWith Row.maxHumidity mv rows)
  | _, _, _ => none

/-- Running extremes of the driver loop.  `none` models the initial
`-inf` (resp. `+inf`) sentinel paired with the empty day string: every
real value beats the sentinel under the strict comparison, and the
report prints the no-data message exactly when the sentinel survives. -/
structure ExtState where
  highest : Option (ℚ × String)
  lowest : Option (ℚ × String)
  humid : Option (ℚ × String)
  deriving DecidableEq

def initExt : ExtState := ⟨none, none, none⟩

/-- `if current > best: update` against a `-inf`-initialized best. -/
def updMax (cur : Option (ℚ × String)) (v : ℚ) (d : String) : Option (ℚ × String) :=
  match cur with
  | none => some (v, d)
  | some (v0, d0) => if v0 < v then some (v, d) else some (v0, d0)

/-- `if current < best: update` against a `+inf`-initialized best. -/
def updMin (cur : Option (ℚ × String)) (v : ℚ) (d : String) : Option (ℚ × String) :=
  match cur with
  | none => some (v, d)
  | some (v0, d0) => if v < v0 then some (v, d) else some (v0, d0)

/-- The `year_wise` branch of the driver loop body: merge one file's
local extremes into the running state. -/
def stepExtremes (s : ExtState) (rows : List Row) : ExtState :=
  match find_extremes rows with
  | none => s
  | some (hv, hd, lv, ld, mv, md) =>
    ⟨updMax s.highest hv hd, updMin s.lowest lv ld, updMax s.humid mv md⟩

/-- Folding the per-file (already filtered) frames into the running
extremes, in file order, as the driver loop does. -/
def foldExtremes (dfs : List (List Row)) : ExtState :=
  dfs.foldl stepExtremes initExt

/-! ## The driver -/

/-- Python truthiness of the optional `month` argument, as tested by
`elif month:` and `if month:` (note: month 0 is falsy). -/
def monthTruthy : Option ℤ → Bool
  | none => false
  | some m => m != 0

/-- `if x is not None: xs.append(x)`. -/
def appendIfSome (l : List ℚ) : Option ℚ → List ℚ
  | none => l
  | some v => l ++ [v]

/-- State of the driver loop across files.  `allData` holds the
collected filtered frames for the chart, each row with its pandas label
(preserved by filtering and, later, by `pd.concat`). -/
structure LoopState where
  diags : List Line
  allData : List (List (ℕ × Row))
  allHighestTemps : List ℚ
  allLowestTemps : List ℚ
  allHumidities : List ℚ
  ext : ExtState
  deriving DecidableEq

def initState : LoopState := ⟨[], [], [], [], [], initExt⟩

/-- One iteration of the `for file in txt_files` loop: load, skip empty
frames, filter, optionally collect for the chart, then fold into the
extremes (`year_wise`) or append the per-file means (`elif month:`).
Diagnostics printed along the way accumulate in `diags`; an uncaught
exception aborts the loop carrying the lines printed so far. -/
def processFile (year : ℤ) (month : Option ℤ) (year_wise chart : Bool)
    (s : LoopState) (f : FileContent) : Except (List Line) LoopState :=
  match load_weather_data f with
  | .error _ => .error s.diags
  | .ok (df, dl) =>
    let s1 : LoopState := { s with diags := s.diags ++ dl }
    if df.rows.isEmpty then .ok s1
    else
      let fd := filter_by_year_and_month df year month
      let s2 : LoopState := { s1 with diags := s1.diags ++ fd.2 }
      let s3 : LoopState :=
        if chart then { s2 with allData := s2.allData ++ [filterWithLabels df year month] }
        else s2
      if year_wise then
        .ok { s3 with ext := stepExtremes s3.ext fd.1.rows }
      else if monthTruthy month then
        let av := calculate_averages fd.1.rows
        .ok { s3 with
          allHighestTemps := appendIfSome s3.allHighestTemps av.1,
          allLowestTemps := appendIfSome s3.allLowestTemps av.2.1,
          allHumidities := appendIfSome s3.allHumidities av.2.2 }
      else .ok s3

/-- Decidable equality of `Except` results, for evaluating the driver
loop on concrete inputs. -/
instance instDecEqExcept {ε α : Type} [DecidableEq ε] [DecidableEq α] :
    DecidableEq (Except ε α)
  | .error e, .error f =>
    if h : e = f then .isTrue (by rw [h]) else .isFalse (by simp [h])
  | .error _, .ok _ => .isFalse (by simp)
  | .ok _, .error _ => .isFalse (by simp)
  | .ok a, .ok b =>
    if h : a = b then .isTrue (by rw [h]) else .isFalse (by simp [h])

/-- The driver loop from a given state. -/
def runLoopFrom (year : ℤ) (month : Option ℤ) (year_wise chart : Bool) :
    LoopState → List FileContent → Except (List Line) LoopState
  | s, [] => .ok s
  | s, f :: fs =>
    match processFile year month year_wise chart s f with
    | .ok s' => runLoopFrom year month year_wise chart s' fs
    | .error d => .error d

/-- The whole driver loop. -/
def runLoop (year : ℤ) (month : Option ℤ) (year_wise chart : Bool)
    (files : List FileContent) : Except (List Line) LoopState :=
  runLoopFrom year month year_wise chart initState files

/-- The `if year_wise:` reporting block: one line per metric, either the
surviving extreme with its day or the per-metric no-data message. -/
def extremesReport (year : ℤ) (e : ExtState) : List Line :=
  (match e.highest with
   | some vd => [Line.highest vd.1 vd.2]
   | none => [Line.noDataHighest year]) ++
  (match e.lowest with
   | some vd => [Line.lowest vd.1 vd.2]
   | none => [Line.noDataLowest year]) ++
  (match e.humid with
   | some vd => [Line.humid vd.1 vd.2]
   | none => [Line.noDataHumid year])

/-- The `if month:` reporting block: when all three mean lists are
non-empty, print `sum / len` of each; otherwise the no-data message. -/
def monthReport (year : ℤ) (month : Option ℤ) (s : LoopState) : List Line :=
  if !s.allHighestTemps.isEmpty && !s.allLowestTemps.isEmpty && !s.allHumidities.isEmpty then
    [Line.highestAverage (meanQ s.allHighestTemps),
     Line.lowestAverage (meanQ s.allLowestTemps),
     Line.averageHumidity (meanQ s.allHumidities)]
  else [Line.noDataAvailable year month]

/-- The `if chart:` reporting block as the source executes it:
concatenate the collected frames (labels preserved) and plot, or print
the no-data message when no frame was collected; the plot itself may
raise `KeyError` from its heading lookup. -/
def chartBlock (year : ℤ) (month : Option ℤ) (chart : Bool) (s : LoopState) :
    Except Unit (List Line) :=
  if chart then
    if !s.allData.isEmpty then plot_temperature_bars s.allData.flatten
    else .ok [Line.noDataAvailable year month]
  else .ok []

/-- Lines printed by the chart block.  When the heading lookup raises,
nothing from this block prints — the exception occurs while the heading
is being built, before any `print` of this call runs; the abort itself
is recorded by `chartAborts`. -/
def chartReport (year : ℤ) (month : Option ℤ) (chart : Bool) (s : LoopState) : List Line :=
  match chartBlock year month chart s with
  | .ok ls => ls
  | .error _ => []

/-- Whether the chart block raises an uncaught `KeyError` (no row of the
concatenated frame carries label 0), aborting the run with exit 1. -/
def chartAborts (year : ℤ) (month : Option ℤ) (chart : Bool) (s : LoopState) : Bool :=
  match chartBlock year month chart s with
  | .ok _ => false
  | .error _ => true

/-- All reporting blocks after the loop, in source order.  Each block is
gated by its own condition; none excludes the others. -/
def report (year : ℤ) (month : Option ℤ) (year_wise chart : Bool) (s : LoopState) : List Line :=
  (if year_wise then extremesReport year s.ext else []) ++
  (if monthTruthy month then monthReport year month s else []) ++
  chartReport year month chart s

/-! ## File discovery -/

/-- Whether a file name ends in `.txt` (case-sensitive, as glob is on
Linux). -/
def endsWithTxt (name : String) : Bool :=
  let cs := name.toList
  cs.drop (cs.length - 4) == ['.', 't', 'x', 't']

/-- A directory entry matched by `glob(os.path.join(folder, "*.txt"))`:
a single path component (no recursion into subdirectories) ending in
`.txt`; the glob `*` does not match a leading dot (hidden files). -/
def isDirectTxt (e : DirEntry) : Bool :=
  match e.path with
  | [name] =>
    (match name.toList with
     | '.' :: _ => false
     | _ => true) && endsWithTxt name
  | _ => false

/-- File discovery: `glob` on a path that does not exist or is not a
directory simply returns no matches; on a directory it returns the
entries matching `*.txt`. -/
def discoverFiles : Option (List DirEntry) → List DirEntry
  | none => []
  | some entries => entries.filter isDirectTxt

/-- `process_weather_files`, start to finish: discover the files, run
the loop, then emit the reporting blocks.  The result is the list of
printed lines and the process exit status: `0` on a normal return, `1`
when an uncaught exception escapes — either from a file read inside the
loop (only the lines printed before the failing file appear) or from
the chart heading lookup after the earlier blocks have printed. -/
def process_weather_files (year : ℤ) (month : Option ℤ)
    (folder : Option (List DirEntry)) (year_wise chart : Bool) : List Line × ℕ :=
  match runLoop year month year_wise chart ((discoverFiles folder).map DirEntry.content) with
  | .error diags => (diags, 1)
  | .ok s => (s.diags ++ report year month year_wise chart s,
      if chartAborts year month chart s then 1 else 0)

/-! ## Specification-side definitions -/

/-- The date of a record as the spec's data model sees it: a record
carries a valid calendar date only when its date string matches the
`digits-digits-digits` pattern of §4.2 and parses to a real date;
otherwise the record has no date and is to be discarded. -/
def recordDate (r : Row) : Option Date :=
  if matchesPattern r.date then parseDate r.date else none

/-- Written from the spec's words (§4.3): keep exactly the records whose
date's year equals the target and, when a month is given, whose date's
month equals the target. -/
def specKeeps (year : ℤ) (month : Option ℤ) (r : Row) : Bool :=
  match recordDate r with
  | none => false
  | some d =>
    (d.year : ℤ) == year &&
      (match month with
       | none => true
       | some m => (d.month : ℤ) == m)

/-! ## Theorems -/

theorem filterRows_eq_filter (rows : List Row) (year : ℤ) (month : Option ℤ) :
    filterRows rows year month = rows.filter (specKeeps year month) := by
  have step : ∀ r : Row,
      ((yearOf r == some year) && matchesPattern r.date) = specKeeps year none r := by
    intro r
    by_cases hp : matchesPattern r.date
    · cases hd : parseDate r.date with
      | none => simp [specKeeps, recordDate, yearOf, hp, hd]
      | some d => simp [specKeeps, recordDate, yearOf, hp, hd]
    · simp [specKeeps, recordDate, yearOf, hp]
  cases month with
  | none =>
    unfold filterRows
    simp only [List.filter_filter]
    exact List.filter_congr fun r _ => step r
  | some m =>
    unfold filterRows
    simp only [List.filter_filter]
    refine List.filter_congr fun r _ => ?_
    by_cases hp : matchesPattern r.date
    · cases hd : parseDate r.date with
      | none => simp [specKeeps, recordDate, yearOf, monthOf, hp, hd]
      | some d => simp [specKeeps, recordDate, yearOf, monthOf, hp, hd, Bool.and_comm]
    · simp [specKeeps, recordDate, yearOf, monthOf, hp]

theorem map_snd_filter_comm (p : Row → Bool) (l : List (ℕ × Row)) :
    (l.filter (fun q => p q.2)).map Prod.snd = (l.map Prod.snd).filter p := by
  induction l with
  | nil => rfl
  | cons a t ih => cases hp : p a.2 <;> simp [List.filter_cons, hp, ih]

/-- The label-preserving filter agrees with `filter_by_year_and_month`
on the row values: they model the one boolean-mask filter of the source,
with and without the frame's labels. -/
theorem filterWithLabels_map_snd (df : DataFrame) (year : ℤ) (month : Option ℤ) :
    (filterWithLabels df year month).map Prod.snd =
      (filter_by_year_and_month df year month).1.rows := by
  rcases hc : get_date_column df with _ | c <;>
    simp only [filterWithLabels, filter_by_year_and_month, hc]
  · rfl
  · cases month with
    | none =>
      simp only [filterRowsWithLabels, filterRows]
      rw [map_snd_filter_comm (fun r => yearOf r == some year),
        map_snd_filter_comm (fun r => matchesPattern r.date), List.enum_map_snd]
    | some m =>
      simp only [filterRowsWithLabels, filterRows]
      rw [map_snd_filter_comm (fun r => monthOf r == some m),
        map_snd_filter_comm (fun r => yearOf r == some year),
        map_snd_filter_comm (fun r => matchesPattern r.date), List.enum_map_snd]

/-- Claim C3: with a recognized date column, the year/month filter
returns exactly the order-preserving subsequence of the records whose
date's year equals the target and, when a month is given, whose date's
month equals it; no error is signalled (no diagnostic line), so empty
input or zero matches just yield the empty row list. -/
theorem filter_is_exact_matching_subsequence (df : DataFrame) (year : ℤ)
    (month : Option ℤ) (c : String) (h : get_date_column df = some c) :
    (filter_by_year_and_month df year month).1.rows = df.rows.filter (specKeeps year month) ∧
    ((filter_by_year_and_month df year month).1.rows).Sublist df.rows ∧
    (filter_by_year_and_month df year month).2 = [] := by
  unfold filter_by_year_and_month
  rw [h]
  refine ⟨filterRows_eq_filter df.rows year month, ?_, rfl⟩
  rw [filterRows_eq_filter]
  exact List.filter_sublist df.rows

/-- Witness for C3 on a concrete frame with a `PKT` date column, rows
from two years and one malformed row. -/
theorem filter_is_exact_matching_subsequence_applied :
    get_date_column ⟨["STN", "PKT"], [⟨"2013-6-1", 30, 20, 80⟩, ⟨"2012-6-1", 10, 5, 40⟩,
        ⟨"bad", 1, 1, 1⟩]⟩ = some "PKT" ∧
    ((filter_by_year_and_month ⟨["STN", "PKT"], [⟨"2013-6-1", 30, 20, 80⟩,
        ⟨"2012-6-1", 10, 5, 40⟩, ⟨"bad", 1, 1, 1⟩]⟩ 2013 none).1.rows =
      [⟨"2013-6-1", 30, 20, 80⟩, ⟨"2012-6-1", 10, 5, 40⟩,
        ⟨"bad", 1, 1, 1⟩].filter (specKeeps 2013 none)) :=
  ⟨by decide,
   (filter_is_exact_matching_subsequence ⟨["STN", "PKT"], [⟨"2013-6-1", 30, 20, 80⟩,
      ⟨"2012-6-1", 10, 5, 40⟩, ⟨"bad", 1, 1, 1⟩]⟩ 2013 none "PKT" (by decide)).1⟩

/-- Claim C7: a row whose date fails the pattern, or matches it without
being a valid calendar date, is dropped silently: filtering with it
present equals filtering with it removed, the other rows unaffected. -/
theorem invalid_date_row_dropped (pre post : List Row) (r : Row) (year : ℤ)
    (month : Option ℤ) (h : recordDate r = none) :
    filterRows (pre ++ r :: post) year month = filterRows (pre ++ post) year month := by
  have hk : specKeeps year month r = false := by unfold specKeeps; rw [h]
  rw [filterRows_eq_filter, filterRows_eq_filter]
  simp [List.filter_append, List.filter_cons, hk]

/-- Witness for C7 at the spec's own example: `"2024-2-30"` matches the
digit pattern but is not a valid calendar date, and its row drops out
without affecting the neighbouring rows. -/
theorem invalid_date_row_dropped_applied :
    matchesPattern "2024-2-30" = true ∧
    recordDate ⟨"2024-2-30", 1, 2, 3⟩ = none ∧
    filterRows [⟨"2024-6-1", 30, 20, 80⟩, ⟨"2024-2-30", 1, 2, 3⟩,
        ⟨"2024-6-2", 25, 18, 90⟩] 2024 (some 6) =
      filterRows [⟨"2024-6-1", 30, 20, 80⟩, ⟨"2024-6-2", 25, 18, 90⟩] 2024 (some 6) :=
  ⟨by decide, by decide,
   invalid_date_row_dropped [⟨"2024-6-1", 30, 20, 80⟩] [⟨"2024-6-2", 25, 18, 90⟩]
     ⟨"2024-2-30", 1, 2, 3⟩ 2024 (some 6) (by decide)⟩

/-- Merging an optional new extreme value into the running maximum, the
value component of `updMax` (with `none` the `-inf` sentinel). -/
def mergeMax : Option ℚ → Option ℚ → Option ℚ
  | a, none => a
  | none, some v => some v
  | some x, some v => some (max x v)

/-- Value component of `updMin` (with `none` the `+inf` sentinel). -/
def mergeMin : Option ℚ → Option ℚ → Option ℚ
  | a, none => a
  | none, some v => some v
  | some x, some v => some (min x v)

theorem if_lt_eq_max (x v : ℚ) : (if x < v then v else x) = max x v := by
  rcases lt_or_le x v with h | h
  · rw [if_pos h, max_eq_right h.le]
  · rw [if_neg (not_lt.mpr h), max_eq_left h]

theorem if_lt_eq_min (x v : ℚ) : (if v < x then v else x) = min x v := by
  rcases lt_or_le v x with h | h
  · rw [if_pos h, min_eq_right h.le]
  · rw [if_neg (not_lt.mpr h), min_eq_left h]

theorem updMax_map_fst (cur : Option (ℚ × String)) (v : ℚ) (d : String) :
    (updMax cur v d).map Prod.fst = mergeMax (cur.map Prod.fst) (some v) := by
  cases cur with
  | none => rfl
  | some p =>
    rcases p with ⟨v0, d0⟩
    simp only [updMax, mergeMax, Option.map_some', apply_ite (Option.map (Prod.fst)),
      Option.map_some']
    rw [← if_lt_eq_max v0 v]
    rcases lt_or_le v0 v with h | h
    · rw [if_pos h, if_pos h]
    · rw [if_neg (not_lt.mpr h), if_neg (not_lt.mpr h)]

theorem updMin_map_fst (cur : Option (ℚ × String)) (v : ℚ) (d : String) :
    (updMin cur v d).map Prod.fst = mergeMin (cur.map Prod.fst) (some v) := by
  cases cur with
  | none => rfl
  | some p =>
    rcases p with ⟨v0, d0⟩
    simp only [updMin, mergeMin, Option.map_some', apply_ite (Option.map (Prod.fst)),
      Option.map_some']
    rw [← if_lt_eq_min v0 v]
    rcases lt_or_le v v0 with h | h
    · rw [if_pos h, if_pos h]
    · rw [if_neg (not_lt.mpr h), if_neg (not_lt.mpr h)]

theorem stepExtremes_proj (s : ExtState) (rows : List Row) :
    (stepExtremes s rows).highest.map Prod.fst =
      mergeMax (s.highest.map Prod.fst) (colMax Row.maxTempC rows) ∧
    (stepExtremes s rows).lowest.map Prod.fst =
      mergeMin (s.lowest.map Prod.fst) (colMin Row.minTempC rows) ∧
    (stepExtremes s rows).humid.map Prod.fst =
      mergeMax (s.humid.map Prod.fst) (colMax Row.maxHumidity rows) := by
  cases rows with
  | nil =>
    refine ⟨?_, ?_, ?_⟩ <;> simp [stepExtremes, find_extremes, colMax, colMin, mergeMax, mergeMin]
  | cons r rs =>
    refine ⟨?_, ?_, ?_⟩ <;>
      simp [stepExtremes, find_extremes, colMax, colMin, updMax_map_fst, updMin_map_fst]

theorem foldExtremes_from_proj : ∀ (dfs : List (List Row)) (s : ExtState),
    (dfs.foldl stepExtremes s).highest.map Prod.fst =
      dfs.foldl (fun a rows => mergeMax a (colMax Row.maxTempC rows)) (s.highest.map Prod.fst) ∧
    (dfs.foldl stepExtremes s).lowest.map Prod.fst =
      dfs.foldl (fun a rows => mergeMin a (colMin Row.minTempC rows)) (s.lowest.map Prod.fst) ∧
    (dfs.foldl stepExtremes s).humid.map Prod.fst =
      dfs.foldl (fun a rows => mergeMax a (colMax Row.maxHumidity rows)) (s.humid.map Prod.fst)
  | [], s => ⟨rfl, rfl, rfl⟩
  | df :: dfs, s => by
    have ih := foldExtremes_from_proj dfs (stepExtremes s df)
    have hp := stepExtremes_proj s df
    refine ⟨?_, ?_, ?_⟩ <;>
      simp only [List.foldl_cons, ih.1, ih.2.1, ih.2.2, hp.1, hp.2.1, hp.2.2]

theorem mergeMax_right_comm (a b c : Option ℚ) :
    mergeMax (mergeMax a b) c = mergeMax (mergeMax a c) b := by
  cases b with
  | none => cases c <;> cases a <;> simp [mergeMax]
  | some x =>
    cases c with
    | none => cases a <;> simp [mergeMax]
    | some y =>
      cases a with
      | none => simp [mergeMax, max_comm]
      | some w => simp [mergeMax, sup_right_comm]

theorem mergeMin_right_comm (a b c : Option ℚ) :
    mergeMin (mergeMin a b) c = mergeMin (mergeMin a c) b := by
  cases b with
  | none => cases c <;> cases a <;> simp [mergeMin]
  | some x =>
    cases c with
    | none => cases a <;> simp [mergeMin]
    | some y =>
      cases a with
      | none => simp [mergeMin, min_comm]
      | some w => simp [mergeMin, inf_right_comm]

/-- Claim C2 (amended): folding the per-file extremes into the running
global extremes is order-independent for the extreme values themselves —
any permutation of the files yields the same highest temperature, lowest
temperature and most-humid value (max/min are associative-commutative).
The occurrence dates are not order-independent: the strict comparisons
keep the first-seen date, so they may depend on file order under ties. -/
theorem extreme_values_order_independent (dfs1 dfs2 : List (List Row))
    (h : dfs1.Perm dfs2) :
    (foldExtremes dfs1).highest.map Prod.fst = (foldExtremes dfs2).highest.map Prod.fst ∧
    (foldExtremes dfs1).lowest.map Prod.fst = (foldExtremes dfs2).lowest.map Prod.fst ∧
    (foldExtremes dfs1).humid.map Prod.fst = (foldExtremes dfs2).humid.map Prod.fst := by
  unfold foldExtremes
  refine ⟨?_, ?_, ?_⟩
  · rw [(foldExtremes_from_proj dfs1 initExt).1, (foldExtremes_from_proj dfs2 initExt).1]
    exact h.foldl_eq' (fun x _ y _ z => mergeMax_right_comm z (colMax Row.maxTempC x)
      (colMax Row.maxTempC y)) _
  · rw [(foldExtremes_from_proj dfs1 initExt).2.1, (foldExtremes_from_proj dfs2 initExt).2.1]
    exact h.foldl_eq' (fun x _ y _ z => mergeMin_right_comm z (colMin Row.minTempC x)
      (colMin Row.minTempC y)) _
  · rw [(foldExtremes_from_proj dfs1 initExt).2.2, (foldExtremes_from_proj dfs2 initExt).2.2]
    exact h.foldl_eq' (fun x _ y _ z => mergeMax_right_comm z (colMax Row.maxHumidity x)
      (colMax Row.maxHumidity y)) _

/-- Witness for C2 (amended) on two concrete one-row files with distinct
extremes, folded in both orders. -/
theorem extreme_values_order_independent_applied :
    List.Perm [[(⟨"2013-5-1", 30, 5, 40⟩ : Row)], [⟨"2013-5-2", 31, 4, 45⟩]]
      [[(⟨"2013-5-2", 31, 4, 45⟩ : Row)], [⟨"2013-5-1", 30, 5, 40⟩]] ∧
    ((foldExtremes [[(⟨"2013-5-1", 30, 5, 40⟩ : Row)], [⟨"2013-5-2", 31, 4, 45⟩]]).highest.map
        Prod.fst =
      (foldExtremes [[(⟨"2013-5-2", 31, 4, 45⟩ : Row)], [⟨"2013-5-1", 30, 5, 40⟩]]).highest.map
        Prod.fst) :=
  ⟨by decide,
   (extreme_values_order_independent _ _ (by decide)).1⟩

/-- Counterexample to C2 as stated: two one-row files tie on the highest
temperature with different dates.  Swapping them is a permutation of the
file collection, yet the reported occurrence date changes — the
first-seen date wins under the strict comparison, so occurrence dates
are not order-independent. -/
theorem extreme_dates_depend_on_order :
    List.Perm [[(⟨"2013-5-1", 30, 5, 40⟩ : Row)], [⟨"2013-5-2", 30, 5, 40⟩]]
      [[(⟨"2013-5-2", 30, 5, 40⟩ : Row)], [⟨"2013-5-1", 30, 5, 40⟩]] ∧
    (foldExtremes [[(⟨"2013-5-1", 30, 5, 40⟩ : Row)], [⟨"2013-5-2", 30, 5, 40⟩]]).highest =
      some (30, "2013-5-1") ∧
    (foldExtremes [[(⟨"2013-5-2", 30, 5, 40⟩ : Row)], [⟨"2013-5-1", 30, 5, 40⟩]]).highest =
      some (30, "2013-5-2") ∧
    ("2013-5-1" : String) ≠ "2013-5-2" := by
  refine ⟨by decide, by decide, by decide, by decide⟩

/-- Claim C6: loading replaces every missing numeric field by zero for
all downstream computation — a loaded row equals the row whose missing
fields really were zero — and concretely the zero arising from a missing
min-temperature cell wins the lowest-temperature comparison just as a
real zero would. -/
theorem missing_fields_treated_as_zero (r : RawRow) :
    (fillRow r).maxTempC = r.maxTempC.getD 0 ∧
    (fillRow r).minTempC = r.minTempC.getD 0 ∧
    (fillRow r).maxHumidity = r.maxHumidity.getD 0 ∧
    fillRow r = fillRow ⟨r.date, some (r.maxTempC.getD 0), some (r.minTempC.getD 0),
      some (r.maxHumidity.getD 0)⟩ ∧
    load_weather_data (.table ["PKT"] [⟨"2013-6-1", some 30, some 20, some 80⟩,
        ⟨"2013-6-2", some 25, none, some 90⟩]) =
      .ok (⟨["PKT"], [⟨"2013-6-1", 30, 20, 80⟩, ⟨"2013-6-2", 25, 0, 90⟩]⟩, []) ∧
    find_extremes [⟨"2013-6-1", 30, 20, 80⟩, ⟨"2013-6-2", 25, 0, 90⟩] =
      some (30, "2013-6-1", 0, "2013-6-2", 90, "2013-6-2") :=
  ⟨rfl, rfl, rfl, rfl, by decide, by decide⟩

/-- Claim C9 (amended): an empty sequence renders only the no-data
message and no heading.  For a non-empty sequence the heading lookup is
label-based: when no row carries pandas label 0 it raises `KeyError`
and nothing is rendered (the run aborts); otherwise the heading holds
the month of every label-0 row (a scalar month when that row is unique
— in particular the first record's month when the sole label-0 row is
positionally first) and the positional first record's year, followed by
one line per record in the given order, each bar's length being the
integer truncation of the low (resp. high) temperature clamped below at
zero (string repetition by a negative count is empty), annotated with
the exact value. -/
theorem chart_renders_label_heading_and_clamped_bars (r : ℕ × Row)
    (rest : List (ℕ × Row)) (q : ℚ) :
    plot_temperature_bars [] = .ok [Line.chartNoData] ∧
    ((r :: rest).filter (fun p => p.1 == 0) = [] →
      plot_temperature_bars (r :: rest) = .error ()) ∧
    ((r :: rest).filter (fun p => p.1 == 0) ≠ [] →
      plot_temperature_bars (r :: rest) =
        .ok (Line.chartHeading
            (((r :: rest).filter (fun p => p.1 == 0)).map (fun p => monthNumOf p.2))
            (yearNumOf r.2) ::
          (r :: rest).map (fun p => chartLine p.2))) ∧
    (r.1 = 0 → rest.filter (fun p => p.1 == 0) = [] →
      plot_temperature_bars (r :: rest) =
        .ok (Line.chartHeading [monthNumOf r.2] (yearNumOf r.2) ::
          (r :: rest).map (fun p => chartLine p.2))) ∧
    chartLine r.2 = Line.chartRow (dayOf r.2) (barLen r.2.minTempC) r.2.minTempC
      (barLen r.2.maxTempC) r.2.maxTempC ∧
    (barLen q : ℤ) = max (intTrunc q) 0 := by
  refine ⟨rfl, ?_, ?_, ?_, rfl, Int.toNat_eq_max _⟩
  · intro h
    simp [plot_temperature_bars, h]
  · intro h
    have he : ((r :: rest).filter (fun p => p.1 == 0)).isEmpty = false := by
      cases hf : (r :: rest).filter (fun p => p.1 == 0) with
      | nil => exact absurd hf h
      | cons a t => rfl
    simp [plot_temperature_bars, he]
  · intro h0 hrest
    have hf : (r :: rest).filter (fun p => p.1 == 0) = [r] := by
      rw [List.filter_cons]
      simp [h0, hrest]
    simp [plot_temperature_bars, hf]

/-- Witness for C9 (amended) on a two-row frame whose sole label-0 row
is the positional first record: the scalar heading comes from that
record's date and one line per record follows. -/
theorem chart_renders_label_heading_applied :
    ((0 : ℕ), (⟨"2013-6-1", 30, 20, 80⟩ : Row)).1 = 0 ∧
    [((1 : ℕ), (⟨"2013-6-2", 25, 18, 90⟩ : Row))].filter (fun p => p.1 == 0) = [] ∧
    plot_temperature_bars
        [((0 : ℕ), (⟨"2013-6-1", 30, 20, 80⟩ : Row)), (1, ⟨"2013-6-2", 25, 18, 90⟩)] =
      .ok (Line.chartHeading [monthNumOf (⟨"2013-6-1", 30, 20, 80⟩ : Row)]
          (yearNumOf (⟨"2013-6-1", 30, 20, 80⟩ : Row)) ::
        [((0 : ℕ), (⟨"2013-6-1", 30, 20, 80⟩ : Row)), (1, ⟨"2013-6-2", 25, 18, 90⟩)].map
          (fun p => chartLine p.2)) :=
  ⟨rfl, by decide,
   (chart_renders_label_heading_and_clamped_bars (0, ⟨"2013-6-1", 30, 20, 80⟩)
     [(1, ⟨"2013-6-2", 25, 18, 90⟩)] 0).2.2.2.1 rfl (by decide)⟩

/-- Counterexample to C9 as stated, in three parts: (a) with a negative
low temperature the rendered bar is empty (`'+' * int(-10)` repeats
zero times), so its length 0 is not the integer truncation -10; (b) a
non-empty frame with no row labelled 0 renders no heading and no lines
at all — the label-based heading lookup raises `KeyError`; (c) two
concatenated one-row frames both carrying label 0 produce a heading
holding a two-element sub-series of months, not the first record's
scalar month. -/
theorem chart_heading_and_bars_counterexample :
    plot_temperature_bars [((0 : ℕ), (⟨"2013-1-5", -5, -10, 40⟩ : Row))] =
      .ok [Line.chartHeading [1] 2013, Line.chartRow 5 0 (-10) 0 (-5)] ∧
    intTrunc (-10 : ℚ) = -10 ∧ ((0 : ℤ) ≠ intTrunc (-10 : ℚ)) ∧
    plot_temperature_bars [((3 : ℕ), (⟨"2013-1-5", 5, 1, 40⟩ : Row))] = .error () ∧
    plot_temperature_bars [((0 : ℕ), (⟨"2013-6-1", 30, 20, 80⟩ : Row)),
        (0, ⟨"2013-6-2", 25, 18, 90⟩)] =
      .ok [Line.chartHeading [6, 6] 2013, Line.chartRow 1 20 20 30 30,
        Line.chartRow 2 18 18 25 25] :=
  ⟨by decide, by decide, by decide, by decide, by decide⟩

/-- Claim C4 (amended): an input path that does not exist or is not a
directory is not fatal: `glob` finds no files, the run is identical to
one over an empty directory, prints the per-mode no-data lines and exits
with status 0.  The source never checks the directory; the run exits
non-zero only when an uncaught exception escapes the per-file loop. -/
theorem missing_directory_behaves_like_empty (year : ℤ) (month : Option ℤ)
    (year_wise chart : Bool) :
    process_weather_files year month none year_wise chart =
      process_weather_files year month (some []) year_wise chart ∧
    (process_weather_files year month none year_wise chart).2 = 0 := by
  refine ⟨rfl, ?_⟩
  cases chart <;> rfl

/-- Counterexample to C4 as stated: with a nonexistent input path the
year-wise run still produces its report (three no-data lines) and exits
with status 0, not non-zero. -/
theorem missing_directory_exits_zero :
    process_weather_files 2013 none none true false =
      ([Line.noDataHighest 2013, Line.noDataLowest 2013, Line.noDataHumid 2013], 0) := by
  decide

/-- Claim C5 (amended): a file raising `pandas.errors.ParserError` is
absorbed locally: loading yields an empty frame plus one diagnostic
line, the loop state is otherwise untouched, and the loop continues with
the remaining files unaffected.  Other structural read failures (e.g. an
encoding error) are not caught and abort the run. -/
theorem parser_error_file_skipped (year : ℤ) (month : Option ℤ)
    (year_wise chart : Bool) (s : LoopState) (fs : List FileContent) :
    load_weather_data .parserError = .ok (⟨[], []⟩, [Line.parseErrorMsg]) ∧
    processFile year month year_wise chart s .parserError =
      .ok { s with diags := s.diags ++ [Line.parseErrorMsg] } ∧
    runLoopFrom year month year_wise chart s (.parserError :: fs) =
      runLoopFrom year month year_wise chart
        { s with diags := s.diags ++ [Line.parseErrorMsg] } fs :=
  ⟨rfl, rfl, rfl⟩

/-- Counterexample to C5 as stated: a structurally unreadable file whose
exception is not a `ParserError` (e.g. an encoding error) does not yield
an empty sequence with processing continuing — it aborts the whole run
with exit status 1 and the following file is never processed, whereas
the same run without the bad file reports that file's data and exits 0. -/
theorem unreadable_file_aborts_run :
    load_weather_data .otherError = .error () ∧
    process_weather_files 2013 none
      (some [⟨["bad.txt"], .otherError⟩, ⟨["good.txt"], .table ["PKT"]
        [⟨"2013-6-1", some 30, some 20, some 80⟩]⟩]) true false = ([], 1) ∧
    process_weather_files 2013 none
      (some [⟨["good.txt"], .table ["PKT"]
        [⟨"2013-6-1", some 30, some 20, some 80⟩]⟩]) true false =
      ([Line.highest 30 "2013-6-1", Line.lowest 20 "2013-6-1",
        Line.humid 80 "2013-6-1"], 0) :=
  ⟨rfl, by decide, by decide⟩

/-- Claim C10: only entries sitting directly in the folder whose name
matches `*.txt` are discovered, and the whole run is unchanged when the
directory is restricted to exactly those entries — every other file
contributes nothing to any report. -/
theorem only_direct_txt_files_processed :
    (∀ (entries : List DirEntry) (e : DirEntry), e ∈ discoverFiles (some entries) →
      ∃ n : String, e.path = [n] ∧ endsWithTxt n = true) ∧
    (∀ (year : ℤ) (month : Option ℤ) (year_wise chart : Bool) (entries : List DirEntry),
      process_weather_files year month (some entries) year_wise chart =
        process_weather_files year month (some (entries.filter isDirectTxt)) year_wise chart) := by
  constructor
  · intro entries e he
    have h : isDirectTxt e = true := (List.mem_filter.mp he).2
    rcases e with ⟨p, content⟩
    match p with
    | [] => simp [isDirectTxt] at h
    | [n] =>
      refine ⟨n, rfl, ?_⟩
      simp only [isDirectTxt, Bool.and_eq_true] at h
      exact h.2
    | a :: b :: t => simp [isDirectTxt] at h
  · intro year month year_wise chart entries
    have hff : (entries.filter isDirectTxt).filter isDirectTxt = entries.filter isDirectTxt := by
      rw [List.filter_filter]
      exact List.filter_congr fun a _ => Bool.and_self _
    simp only [process_weather_files, discoverFiles, hff]

/-- Witness for C10: a directory holding a matching file, a file inside
a subdirectory and a non-`.txt` file; the matching entry is discovered
and indeed sits directly in the folder with a `.txt` name. -/
theorem only_direct_txt_files_processed_applied :
    (⟨["lahore.txt"], FileContent.parserError⟩ : DirEntry) ∈
      discoverFiles (some [⟨["lahore.txt"], FileContent.parserError⟩,
        ⟨["sub", "x.txt"], FileContent.parserError⟩,
        ⟨["notes.csv"], FileContent.parserError⟩]) ∧
    (∃ n : String, (⟨["lahore.txt"], FileContent.parserError⟩ : DirEntry).path = [n] ∧
      endsWithTxt n = true) :=
  ⟨by decide,
   only_direct_txt_files_processed.1
     [⟨["lahore.txt"], FileContent.parserError⟩, ⟨["sub", "x.txt"], FileContent.parserError⟩,
       ⟨["notes.csv"], FileContent.parserError⟩]
     ⟨["lahore.txt"], FileContent.parserError⟩ (by decide)⟩

/-- Written from the spec's words (§4.4, average mode): a file's mean of
each metric over its filtered records; a file whose filtered record set
is empty contributes no entry. -/
def specFileMean (year : ℤ) (month : Option ℤ) (cols : List String)
    (raw : List RawRow) : Option (ℚ × ℚ × ℚ) :=
  let rows := (filter_by_year_and_month ⟨cols, raw.map fillRow⟩ year month).1.rows
  if rows.isEmpty then none
  else some (meanQ (rows.map Row.maxTempC), meanQ (rows.map Row.minTempC),
    meanQ (rows.map Row.maxHumidity))

/-- The list of per-file means, one entry per file with a non-empty
filtered record set, in file order. -/
def perFileMeans (year : ℤ) (month : Option ℤ)
    (files : List (List String × List RawRow)) : List (ℚ × ℚ × ℚ) :=
  files.filterMap (fun p => specFileMean year month p.1 p.2)

theorem filtered_rows_of_empty (cols : List String) (year : ℤ) (month : Option ℤ) :
    (filter_by_year_and_month ⟨cols, []⟩ year month).1.rows = [] := by
  rcases hc : get_date_column ⟨cols, []⟩ with _ | c <;>
    simp [filter_by_year_and_month, hc, filterRows_eq_filter]

theorem processFile_table_avg (year : ℤ) (month : Option ℤ) (chart : Bool)
    (hm : monthTruthy month = true) (s : LoopState) (cols : List String)
    (raw : List RawRow) :
    ∃ s' : LoopState,
      processFile year month false chart s (.table cols raw) = .ok s' ∧
      s'.allHighestTemps = s.allHighestTemps ++
        ((specFileMean year month cols raw).map (fun t => t.1)).toList ∧
      s'.allLowestTemps = s.allLowestTemps ++
        ((specFileMean year month cols raw).map (fun t => t.2.1)).toList ∧
      s'.allHumidities = s.allHumidities ++
        ((specFileMean year month cols raw).map (fun t => t.2.2)).toList := by
  by_cases he : (raw.map fillRow).isEmpty = true
  · have hraw : raw.map fillRow = [] := List.isEmpty_iff.mp he
    have hsf : specFileMean year month cols raw = none := by
      simp [specFileMean, hraw, filtered_rows_of_empty]
    refine ⟨{ s with diags := s.diags ++ [] }, ?_, by simp [hsf], by simp [hsf], by simp [hsf]⟩
    simp only [processFile, load_weather_data]
    rw [if_pos he]
  · simp only [processFile, load_weather_data]
    rw [if_neg he, hm]
    simp only [Bool.false_eq_true, if_false, if_true]
    rcases hrows : (filter_by_year_and_month ⟨cols, raw.map fillRow⟩ year month).1.rows
      with _ | ⟨r, rs⟩
    · have hsf : specFileMean year month cols raw = none := by
        simp [specFileMean, hrows]
      refine ⟨_, rfl, ?_, ?_, ?_⟩ <;>
        simp [hsf, hrows, calculate_averages, appendIfSome, apply_ite LoopState.allHighestTemps,
          apply_ite LoopState.allLowestTemps, apply_ite LoopState.allHumidities]
    · have hsf : specFileMean year month cols raw =
          some (meanQ ((r :: rs).map Row.maxTempC), meanQ ((r :: rs).map Row.minTempC),
            meanQ ((r :: rs).map Row.maxHumidity)) := by
        simp [specFileMean, hrows]
      refine ⟨_, rfl, ?_, ?_, ?_⟩ <;>
        simp [hsf, hrows, calculate_averages, appendIfSome, apply_ite LoopState.allHighestTemps,
          apply_ite LoopState.allLowestTemps, apply_ite LoopState.allHumidities]

theorem runLoopFrom_tables_avg (year : ℤ) (month : Option ℤ) (chart : Bool)
    (hm : monthTruthy month = true) :
    ∀ (files : List (List String × List RawRow)) (s : LoopState),
    ∃ s' : LoopState,
      runLoopFrom year month false chart s
        (files.map (fun p => FileContent.table p.1 p.2)) = .ok s' ∧
      s'.allHighestTemps = s.allHighestTemps ++
        (perFileMeans year month files).map (fun t => t.1) ∧
      s'.allLowestTemps = s.allLowestTemps ++
        (perFileMeans year month files).map (fun t => t.2.1) ∧
      s'.allHumidities = s.allHumidities ++
        (perFileMeans year month files).map (fun t => t.2.2)
  | [], s => ⟨s, rfl, by simp [perFileMeans], by simp [perFileMeans], by simp [perFileMeans]⟩
  | (cols, raw) :: files, s => by
    obtain ⟨s1, hstep, h1, h2, h3⟩ := processFile_table_avg year month chart hm s cols raw
    obtain ⟨s', hrun, g1, g2, g3⟩ := runLoopFrom_tables_avg year month chart hm files s1
    refine ⟨s', ?_, ?_, ?_, ?_⟩
    · simpa only [List.map_cons, runLoopFrom, hstep] using hrun
    · rw [g1, h1]
      cases hsf : specFileMean year month cols raw <;>
        simp [perFileMeans, List.filterMap_cons, hsf]
    · rw [g2, h2]
      cases hsf : specFileMean year month cols raw <;>
        simp [perFileMeans, List.filterMap_cons, hsf]
    · rw [g3, h3]
      cases hsf : specFileMean year month cols raw <;>
        simp [perFileMeans, List.filterMap_cons, hsf]

/-- Claim C1: in average (month-wise) mode — `year_wise` unset, truthy
month — the loop over any collection of readable files collects exactly
the per-file means over each file's filtered records (a file with an
empty filtered record set contributing no entry), and the final report
prints, per metric, the arithmetic mean of those per-file means (each
file weighted equally regardless of row count), or the no-data line when
no file contributed. -/
theorem averages_are_mean_of_file_means (year : ℤ) (month : Option ℤ) (chart : Bool)
    (files : List (List String × List RawRow)) (hm : monthTruthy month = true) :
    ∃ s : LoopState,
      runLoop year month false chart
        (files.map (fun p => FileContent.table p.1 p.2)) = .ok s ∧
      s.allHighestTemps = (perFileMeans year month files).map (fun t => t.1) ∧
      s.allLowestTemps = (perFileMeans year month files).map (fun t => t.2.1) ∧
      s.allHumidities = (perFileMeans year month files).map (fun t => t.2.2) ∧
      monthReport year month s =
        (if perFileMeans year month files = [] then [Line.noDataAvailable year month]
         else
           [Line.highestAverage (meanQ ((perFileMeans year month files).map (fun t => t.1))),
            Line.lowestAverage (meanQ ((perFileMeans year month files).map (fun t => t.2.1))),
            Line.averageHumidity
              (meanQ ((perFileMeans year month files).map (fun t => t.2.2)))]) := by
  obtain ⟨s, hrun, h1, h2, h3⟩ := runLoopFrom_tables_avg year month chart hm files initState
  have h1' : s.allHighestTemps = (perFileMeans year month files).map (fun t => t.1) := by
    simpa [initState] using h1
  have h2' : s.allLowestTemps = (perFileMeans year month files).map (fun t => t.2.1) := by
    simpa [initState] using h2
  have h3' : s.allHumidities = (perFileMeans year month files).map (fun t => t.2.2) := by
    simpa [initState] using h3
  refine ⟨s, hrun, h1', h2', h3', ?_⟩
  unfold monthReport
  rcases hpm : perFileMeans year month files with _ | ⟨t, ts⟩
  · simp [h1', h2', h3', hpm]
  · simp [h1', h2', h3', hpm]

/-- Witness for C1 on two concrete stations of unequal row counts: the
reported averages are the means of the two per-file means. -/
theorem averages_are_mean_of_file_means_applied :
    monthTruthy (some 6) = true ∧
    (∃ s : LoopState,
      runLoop 2013 (some 6) false false
        ([(["PKT"], [⟨"2013-6-1", some 10, some 4, some 50⟩]),
          (["PKT"], [⟨"2013-6-1", some 20, some 6, some 60⟩,
            ⟨"2013-6-2", some 20, some 10, some 80⟩])].map
          (fun p => FileContent.table p.1 p.2)) = .ok s ∧
      s.allHighestTemps = (perFileMeans 2013 (some 6)
        [(["PKT"], [⟨"2013-6-1", some 10, some 4, some 50⟩]),
          (["PKT"], [⟨"2013-6-1", some 20, some 6, some 60⟩,
            ⟨"2013-6-2", some 20, some 10, some 80⟩])]).map (fun t => t.1) ∧
      s.allLowestTemps = (perFileMeans 2013 (some 6)
        [(["PKT"], [⟨"2013-6-1", some 10, some 4, some 50⟩]),
          (["PKT"], [⟨"2013-6-1", some 20, some 6, some 60⟩,
            ⟨"2013-6-2", some 20, some 10, some 80⟩])]).map (fun t => t.2.1) ∧
      s.allHumidities = (perFileMeans 2013 (some 6)
        [(["PKT"], [⟨"2013-6-1", some 10, some 4, some 50⟩]),
          (["PKT"], [⟨"2013-6-1", some 20, some 6, some 60⟩,
            ⟨"2013-6-2", some 20, some 10, some 80⟩])]).map (fun t => t.2.2) ∧
      monthReport 2013 (some 6) s =
        (if perFileMeans 2013 (some 6)
            [(["PKT"], [⟨"2013-6-1", some 10, some 4, some 50⟩]),
              (["PKT"], [⟨"2013-6-1", some 20, some 6, some 60⟩,
                ⟨"2013-6-2", some 20, some 10, some 80⟩])] = []
         then [Line.noDataAvailable 2013 (some 6)]
         else
           [Line.highestAverage (meanQ ((perFileMeans 2013 (some 6)
              [(["PKT"], [⟨"2013-6-1", some 10, some 4, some 50⟩]),
                (["PKT"], [⟨"2013-6-1", some 20, some 6, some 60⟩,
                  ⟨"2013-6-2", some 20, some 10, some 80⟩])]).map (fun t => t.1))),
            Line.lowestAverage (meanQ ((perFileMeans 2013 (some 6)
              [(["PKT"], [⟨"2013-6-1", some 10, some 4, some 50⟩]),
                (["PKT"], [⟨"2013-6-1", some 20, some 6, some 60⟩,
                  ⟨"2013-6-2", some 20, some 10, some 80⟩])]).map (fun t => t.2.1))),
            Line.averageHumidity (meanQ ((perFileMeans 2013 (some 6)
              [(["PKT"], [⟨"2013-6-1", some 10, some 4, some 50⟩]),
                (["PKT"], [⟨"2013-6-1", some 20, some 6, some 60⟩,
                  ⟨"2013-6-2", some 20, some 10, some 80⟩])]).map (fun t => t.2.2)))])) :=
  ⟨rfl, averages_are_mean_of_file_means 2013 (some 6) false
    [(["PKT"], [⟨"2013-6-1", some 10, some 4, some 50⟩]),
      (["PKT"], [⟨"2013-6-1", some 20, some 6, some 60⟩,
        ⟨"2013-6-2", some 20, some 10, some 80⟩])] rfl⟩

theorem processFile_yearwise_lists (year : ℤ) (month : Option ℤ) (chart : Bool)
    (s : LoopState) (f : FileContent) (s' : LoopState)
    (h : processFile year month true chart s f = .ok s') :
    s'.allHighestTemps = s.allHighestTemps ∧
    s'.allLowestTemps = s.allLowestTemps ∧
    s'.allHumidities = s.allHumidities := by
  cases f with
  | table cols raw =>
    simp only [processFile, load_weather_data] at h
    by_cases he : (raw.map fillRow).isEmpty = true
    · rw [if_pos he] at h
      cases h
      exact ⟨rfl, rfl, rfl⟩
    · rw [if_neg he] at h
      simp only [if_true] at h
      cases h
      refine ⟨?_, ?_, ?_⟩ <;>
        simp [apply_ite LoopState.allHighestTemps, apply_ite LoopState.allLowestTemps,
          apply_ite LoopState.allHumidities]
  | parserError =>
    simp only [processFile, load_weather_data] at h
    cases h
    exact ⟨rfl, rfl, rfl⟩
  | otherError =>
    simp only [processFile, load_weather_data] at h
    cases h

theorem runLoopFrom_yearwise_lists (year : ℤ) (month : Option ℤ) (chart : Bool) :
    ∀ (files : List FileContent) (s s' : LoopState),
    runLoopFrom year month true chart s files = .ok s' →
    s'.allHighestTemps = s.allHighestTemps ∧
    s'.allLowestTemps = s.allLowestTemps ∧
    s'.allHumidities = s.allHumidities
  | [], s, s', h => by
    cases h
    exact ⟨rfl, rfl, rfl⟩
  | f :: fs, s, s', h => by
    rcases hp : processFile year month true chart s f with d | s1
    · rw [runLoopFrom, hp] at h
      cases h
    · rw [runLoopFrom, hp] at h
      obtain ⟨a1, a2, a3⟩ := processFile_yearwise_lists year month chart s f s1 hp
      obtain ⟨b1, b2, b3⟩ := runLoopFrom_yearwise_lists year month chart fs s1 s' h
      exact ⟨b1.trans a1, b2.trans a2, b3.trans a3⟩

/-- Claim C8 (amended): the reporting sections are independently gated
rather than mutually exclusive.  When the year-wise flag is set the loop
never collects per-file means, so if a (truthy) month is also supplied
the averages section still runs and prints its no-data line after the
extremes lines: the whole report is the extremes block, followed by that
line, followed by the chart block when requested. -/
theorem report_sections_independently_gated (year : ℤ) (month : Option ℤ)
    (chart : Bool) (files : List FileContent) (s : LoopState)
    (hm : monthTruthy month = true)
    (h : runLoop year month true chart files = .ok s) :
    s.allHighestTemps = [] ∧ s.allLowestTemps = [] ∧ s.allHumidities = [] ∧
    monthReport year month s = [Line.noDataAvailable year month] ∧
    report year month true chart s =
      extremesReport year s.ext ++ [Line.noDataAvailable year month] ++
        chartReport year month chart s := by
  obtain ⟨h1, h2, h3⟩ := runLoopFrom_yearwise_lists year month chart files initState s h
  have h1' : s.allHighestTemps = [] := by simpa [initState] using h1
  have h2' : s.allLowestTemps = [] := by simpa [initState] using h2
  have h3' : s.allHumidities = [] := by simpa [initState] using h3
  have hrep : monthReport year month s = [Line.noDataAvailable year month] := by
    simp [monthReport, h1', h2', h3']
  refine ⟨h1', h2', h3', hrep, ?_⟩
  simp [report, hm, hrep]

/-- Witness for C8 (amended) on one concrete file with both the
year-wise flag and a month supplied. -/
theorem report_sections_independently_gated_applied :
    monthTruthy (some 6) = true ∧
    runLoop 2013 (some 6) true false
      [.table ["PKT"] [⟨"2013-6-1", some 30, some 20, some 80⟩]] =
      .ok ⟨[], [], [], [], [],
        ⟨some (30, "2013-6-1"), some (20, "2013-6-1"), some (80, "2013-6-1")⟩⟩ ∧
    monthReport 2013 (some 6)
      ⟨[], [], [], [], [],
        ⟨some (30, "2013-6-1"), some (20, "2013-6-1"), some (80, "2013-6-1")⟩⟩ =
      [Line.noDataAvailable 2013 (some 6)] :=
  ⟨rfl, by decide,
   (report_sections_independently_gated 2013 (some 6) false
     [.table ["PKT"] [⟨"2013-6-1", some 30, some 20, some 80⟩]]
     ⟨[], [], [], [], [],
       ⟨some (30, "2013-6-1"), some (20, "2013-6-1"), some (80, "2013-6-1")⟩⟩
     rfl (by decide)).2.2.2.1⟩

/-- Counterexample to C8 as stated: supplying both the year-wise flag
and a month makes the run print the extremes section and the averages
section's no-data line in one invocation — output from both report
modes, not from only one. -/
theorem year_wise_with_month_prints_both_sections :
    process_weather_files 2013 (some 6)
      (some [⟨["w.txt"], .table ["PKT"] [⟨"2013-6-1", some 30, some 20, some 80⟩]⟩])
      true false =
      ([Line.highest 30 "2013-6-1", Line.lowest 20 "2013-6-1", Line.humid 80 "2013-6-1",
        Line.noDataAvailable 2013 (some 6)], 0) ∧
    Line.highest 30 "2013-6-1" ∈
      (process_weather_files 2013 (some 6)
        (some [⟨["w.txt"], .table ["PKT"] [⟨"2013-6-1", some 30, some 20, some 80⟩]⟩])
        true false).1 ∧
    Line.noDataAvailable 2013 (some 6) ∈
      (process_weather_files 2013 (some 6)
        (some [⟨["w.txt"], .table ["PKT"] [⟨"2013-6-1", some 30, some 20, some 80⟩]⟩])
        true false).1 :=
  ⟨by decide, by decide, by decide⟩

end Weatherman
